import Mathlib

/-!
Shallow embedding of `src/check_db.py`, a PostgreSQL connectivity probe:

```python
  # (module header: os, psycopg2, dotenv.load_dotenv)
  load_dotenv()

  try:
      conn = psycopg2.connect(os.getenv("DATABASE_URL"))
      print("✅ Neon DB 연결 성공!")

      cur = conn.cursor()
      cur.execute("SELECT version()")
      version = cur.fetchone()
      print(f"PostgreSQL version: \x7bversion[0]\x7d")

      cur.close()
      conn.close()

  except Exception as e:
      print(f"❌ 연결 실패: \x7be\x7d")
```

The script is deterministic given the process environment (after
`load_dotenv`, which only reads a file and never raises with default
arguments) and the behaviour of the external database driver.  We model the
driver by an `Oracle` giving the outcome of each external call, and the run
as the list of events (external calls and prints) the script performs, in
order, together with the exception, if any, raised inside the `try` block.
-/

namespace CheckDb

/-- The process environment after `load_dotenv`: an association list of
variable names to values. -/
abbrev Env := List (String × String)

/-- `os.getenv(k)`: the value of the first binding of `k`, or `None`. -/
def getenv (env : Env) (k : String) : Option String :=
  (env.find? (fun p => p.1 == k)).map (fun p => p.2)

/-- Observable events of one run, in program order.  `fileWrite` and
`sysExit` are included so that the frame properties (the script writes no
files and sets no explicit exit code) are statable; the embedded program
never emits them, because the source contains no file write and no
`sys.exit`. -/
inductive Event where
  | connectAttempt (dsn : Option String)
  | print (s : String)
  | openCursor
  | execQuery (q : String)
  | fetchRow
  | closeCursor
  | closeConn
  | fileWrite (path : String) (content : String)
  | sysExit (code : Nat)
deriving DecidableEq, Repr

/-- The literal success banner printed right after `psycopg2.connect`. -/
def successBanner : String := "✅ Neon DB 연결 성공!"

/-- The literal SQL text passed to `cur.execute`. -/
def versionQuery : String := "SELECT version()"

/-- The f-string `f"PostgreSQL version: \x7bversion[0]\x7d"`. -/
def versionLine (v : String) : String := "PostgreSQL version: " ++ v

/-- The f-string `f"❌ 연결 실패: \x7be\x7d"` printed by the handler. -/
def failureMsg (e : String) : String := "❌ 연결 실패: " ++ e

/-- Outcomes of the external driver calls made by the script.  Each call
either succeeds (with a result) or raises an exception carrying a message.
`fetchResult` returns `none` when `fetchone` yields `None` (no row) and a
row as a list of field strings otherwise. -/
structure Oracle where
  connectResult : Option String → Except String Unit
  cursorResult : Except String Unit
  executeResult : String → Except String Unit
  fetchResult : Except String (Option (List String))
  closeCurResult : Except String Unit
  closeConnResult : Except String Unit

/-- Message of the exception Python raises for `None[0]`. -/
def noneSubscriptError : String :=
  "TypeError: NoneType object is not subscriptable"

/-- Message of the exception Python raises for `()[0]`. -/
def emptyRowError : String := "IndexError: tuple index out of range"

/-- `version[0]`: subscripting the fetched row.  Raises on `None` and on an
empty row, returns the first field otherwise. -/
def subscript0 : Option (List String) → Except String String
  | none => Except.error noneSubscriptError
  | some [] => Except.error emptyRowError
  | some (v :: _) => Except.ok v

/-- The `try` block of the script: the events it performs in order, and the
exception raised inside it, if any.  Each external call is recorded as an
event when it is made; if the call raises, execution stops there. -/
def tryBody (env : Env) (o : Oracle) : List Event × Option String :=
  let dsn := getenv env "DATABASE_URL"
  match o.connectResult dsn with
  | .error e => ([.connectAttempt dsn], some e)
  | .ok _ =>
    match o.cursorResult with
    | .error e =>
      ([.connectAttempt dsn, .print successBanner, .openCursor], some e)
    | .ok _ =>
      match o.executeResult versionQuery with
      | .error e =>
        ([.connectAttempt dsn, .print successBanner, .openCursor,
          .execQuery versionQuery], some e)
      | .ok _ =>
        match o.fetchResult with
        | .error e =>
          ([.connectAttempt dsn, .print successBanner, .openCursor,
            .execQuery versionQuery, .fetchRow], some e)
        | .ok version =>
          match subscript0 version with
          | .error e =>
            ([.connectAttempt dsn, .print successBanner, .openCursor,
              .execQuery versionQuery, .fetchRow], some e)
          | .ok v =>
            match o.closeCurResult with
            | .error e =>
              ([.connectAttempt dsn, .print successBanner, .openCursor,
                .execQuery versionQuery, .fetchRow, .print (versionLine v),
                .closeCursor], some e)
            | .ok _ =>
              match o.closeConnResult with
              | .error e =>
                ([.connectAttempt dsn, .print successBanner, .openCursor,
                  .execQuery versionQuery, .fetchRow, .print (versionLine v),
                  .closeCursor, .closeConn], some e)
              | .ok _ =>
                ([.connectAttempt dsn, .print successBanner, .openCursor,
                  .execQuery versionQuery, .fetchRow, .print (versionLine v),
                  .closeCursor, .closeConn], none)

/-- The whole script: the `try` block wrapped in `except Exception as e`.
The result is the full event list and the exception escaping the process,
if any.  The handler converts every exception into one print and raises
nothing, so the escaping-exception component is `none` on both arms. -/
def script (env : Env) (o : Oracle) : List Event × Option String :=
  match tryBody env o with
  | (evs, none) => (evs, none)
  | (evs, some e) => (evs ++ [.print (failureMsg e)], none)

/-- The event trace of one invocation. -/
def run (env : Env) (o : Oracle) : List Event :=
  (script env o).1

/-- The terminal output of one invocation: the printed lines in order. -/
def printsOf (evs : List Event) : List String :=
  evs.filterMap (fun ev => match ev with | .print s => some s | _ => none)

/-- The terminal output of the script. -/
def output (env : Env) (o : Oracle) : List String :=
  printsOf (run env o)

/-- Event classifiers used to count occurrences in a trace. -/
def isConnectAttempt : Event → Bool
  | .connectAttempt _ => true
  | _ => false

def isExecQuery : Event → Bool
  | .execQuery _ => true
  | _ => false

def isFetchRow : Event → Bool
  | .fetchRow => true
  | _ => false

def isCloseCursor : Event → Bool
  | .closeCursor => true
  | _ => false

def isCloseConn : Event → Bool
  | .closeConn => true
  | _ => false

def isFileWrite : Event → Bool
  | .fileWrite _ _ => true
  | _ => false

def isSysExit : Event → Bool
  | .sysExit _ => true
  | _ => false

/-- Number of events of a given kind in a trace. -/
def countEv (p : Event → Bool) (evs : List Event) : Nat :=
  (evs.filter p).length

/-- A printed line of the failure shape: it starts with the handler text. -/
def isFailureLine (s : String) : Bool :=
  (failureMsg "").data.isPrefixOf s.data

/-- The connection was acquired: `psycopg2.connect` returned a handle. -/
def connAcquired (env : Env) (o : Oracle) : Bool :=
  match o.connectResult (getenv env "DATABASE_URL") with
  | .ok _ => true
  | .error _ => false

/-- Persistent state outside the process: files, as path-content pairs. -/
abbrev World := List (String × String)

/-- Effect of a trace on the persistent world: only `fileWrite` changes it. -/
def applyEvents (w : World) (evs : List Event) : World :=
  evs.foldl
    (fun acc ev => match ev with
      | .fileWrite p c => (p, c) :: acc
      | _ => acc) w

/-- One invocation seen together with its effect on the persistent world. -/
def runW (w : World) (env : Env) (o : Oracle) : List Event × World :=
  (run env o, applyEvents w (run env o))

/-- `s` starts with `p` as strings. -/
def strStartsWith (s p : String) : Prop := ∃ t, s = p ++ t

/-- Demo environment holding a connection URL. -/
def envDemo : Env := [("DATABASE_URL", "postgresql://demo")]

/-- Empty process environment: `DATABASE_URL` is absent. -/
def envEmpty : Env := []

/-- Driver behaviour: every call succeeds and the query yields one row. -/
def oAllOk : Oracle where
  connectResult := fun _ => .ok ()
  cursorResult := .ok ()
  executeResult := fun _ => .ok ()
  fetchResult := .ok (some ["PostgreSQL 16.2 on x86_64-pc-linux-gnu"])
  closeCurResult := .ok ()
  closeConnResult := .ok ()

/-- Driver behaviour: the connection opens but the query raises. -/
def oExecFail : Oracle where
  connectResult := fun _ => .ok ()
  cursorResult := .ok ()
  executeResult := fun _ => .error "ERROR: permission denied"
  fetchResult := .ok (some ["PostgreSQL 16.2 on x86_64-pc-linux-gnu"])
  closeCurResult := .ok ()
  closeConnResult := .ok ()

/-- Driver behaviour: the connection attempt is refused. -/
def oConnFail : Oracle where
  connectResult := fun _ => .error "connection refused"
  cursorResult := .ok ()
  executeResult := fun _ => .ok ()
  fetchResult := .ok (some ["PostgreSQL 16.2 on x86_64-pc-linux-gnu"])
  closeCurResult := .ok ()
  closeConnResult := .ok ()

/-- Driver behaviour: every call succeeds but `fetchone` returns `None`. -/
def oNoRow : Oracle where
  connectResult := fun _ => .ok ()
  cursorResult := .ok ()
  executeResult := fun _ => .ok ()
  fetchResult := .ok none
  closeCurResult := .ok ()
  closeConnResult := .ok ()

/-- Claim C1 exactly as stated: whenever the connection is acquired, the
connection and the cursor are each released exactly once before the
process ends, on the success path and on every failure path. -/
def releasedOnceWhenAcquired : Prop :=
  ∀ (env : Env) (o : Oracle), connAcquired env o = true →
    countEv isCloseConn (run env o) = 1 ∧ countEv isCloseCursor (run env o) = 1

/-- Claim C2 exactly as stated: no run's output carries both the success
marker and a failure-shaped line. -/
def neverBothMarkers : Prop :=
  ∀ (env : Env) (o : Oracle),
    ¬ (successBanner ∈ output env o
        ∧ ∃ s, s ∈ output env o ∧ isFailureLine s = true)

/-! ## Helper lemmas -/

/-- Every `try`-block execution is one of seven explicit event/exception
shapes, one per point at which an external call can raise (the fetch-raises
and row-subscript-raises cases share a trace shape) plus the full success. -/
lemma tryBody_shape (env : Env) (o : Oracle) :
    (∃ e, o.connectResult (getenv env "DATABASE_URL") = .error e
      ∧ tryBody env o =
        ([.connectAttempt (getenv env "DATABASE_URL")], some e))
    ∨ (∃ e, tryBody env o =
      ([.connectAttempt (getenv env "DATABASE_URL"), .print successBanner,
        .openCursor], some e))
    ∨ (∃ e, tryBody env o =
      ([.connectAttempt (getenv env "DATABASE_URL"), .print successBanner,
        .openCursor, .execQuery versionQuery], some e))
    ∨ (∃ e, tryBody env o =
      ([.connectAttempt (getenv env "DATABASE_URL"), .print successBanner,
        .openCursor, .execQuery versionQuery, .fetchRow], some e))
    ∨ (∃ v e, tryBody env o =
      ([.connectAttempt (getenv env "DATABASE_URL"), .print successBanner,
        .openCursor, .execQuery versionQuery, .fetchRow,
        .print (versionLine v), .closeCursor], some e))
    ∨ (∃ v e, tryBody env o =
      ([.connectAttempt (getenv env "DATABASE_URL"), .print successBanner,
        .openCursor, .execQuery versionQuery, .fetchRow,
        .print (versionLine v), .closeCursor, .closeConn], some e))
    ∨ (∃ v, tryBody env o =
      ([.connectAttempt (getenv env "DATABASE_URL"), .print successBanner,
        .openCursor, .execQuery versionQuery, .fetchRow,
        .print (versionLine v), .closeCursor, .closeConn], none)) := by
  cases hc : o.connectResult (getenv env "DATABASE_URL")
  · rename_i e
    exact Or.inl ⟨e, hc ▸ rfl, by simp [tryBody, hc]⟩
  · cases hcur : o.cursorResult
    · rename_i e
      exact Or.inr (Or.inl ⟨e, by simp [tryBody, hc, hcur]⟩)
    · cases hex : o.executeResult versionQuery
      · rename_i e
        exact Or.inr (Or.inr (Or.inl ⟨e, by simp [tryBody, hc, hcur, hex]⟩))
      · cases hf : o.fetchResult
        · rename_i e
          exact Or.inr (Or.inr (Or.inr (Or.inl
            ⟨e, by simp [tryBody, hc, hcur, hex, hf]⟩)))
        · rename_i version
          cases hs : subscript0 version
          · rename_i e
            exact Or.inr (Or.inr (Or.inr (Or.inl
              ⟨e, by simp [tryBody, hc, hcur, hex, hf, hs]⟩)))
          · rename_i v
            cases hcc : o.closeCurResult
            · rename_i e
              exact Or.inr (Or.inr (Or.inr (Or.inr (Or.inl
                ⟨v, e, by simp [tryBody, hc, hcur, hex, hf, hs, hcc]⟩))))
            · cases hcn : o.closeConnResult
              · rename_i e
                exact Or.inr (Or.inr (Or.inr (Or.inr (Or.inr (Or.inl
                  ⟨v, e, by simp [tryBody, hc, hcur, hex, hf, hs, hcc, hcn]⟩)))))
              · exact Or.inr (Or.inr (Or.inr (Or.inr (Or.inr (Or.inr
                  ⟨v, by simp [tryBody, hc, hcur, hex, hf, hs, hcc, hcn]⟩)))))

/-- The script itself never lets an exception escape. -/
lemma script_snd_none (env : Env) (o : Oracle) : (script env o).2 = none := by
  unfold script
  rcases h : tryBody env o with ⟨evs, _ | e⟩ <;> simp

/-- On a failing run, the trace is the body's events followed by the
handler's single failure print. -/
lemma run_fail_eq (env : Env) (o : Oracle) (e : String)
    (h : (tryBody env o).2 = some e) :
    run env o = (tryBody env o).1 ++ [Event.print (failureMsg e)] := by
  unfold run script
  rcases ht : tryBody env o with ⟨evs, exc⟩
  rw [ht] at h
  simp at h
  subst h
  simp

/-- On a successful run, the trace is exactly the body's events. -/
lemma run_none_eq (env : Env) (o : Oracle)
    (h : (tryBody env o).2 = none) :
    run env o = (tryBody env o).1 := by
  unfold run script
  rcases ht : tryBody env o with ⟨evs, exc⟩
  rw [ht] at h
  simp at h
  subst h
  simp

/-- Printed lines distribute over trace concatenation. -/
lemma printsOf_append (l1 l2 : List Event) :
    printsOf (l1 ++ l2) = printsOf l1 ++ printsOf l2 := by
  simp [printsOf]

/-- The version line never has the failure shape: it starts with a
different character. -/
lemma isFailureLine_versionLine (v : String) :
    isFailureLine (versionLine v) = false := by
  show (failureMsg "").data.isPrefixOf
    (("PostgreSQL version: " ++ v)).data = false
  rw [String.data_append]
  rfl

/-- The success banner does not have the failure shape. -/
lemma isFailureLine_banner : isFailureLine successBanner = false := by decide

/-- Every handler message has the failure shape. -/
lemma isFailureLine_failureMsg (e : String) :
    isFailureLine (failureMsg e) = true := by
  show (failureMsg "").data.isPrefixOf (failureMsg e).data = true
  have h1 : failureMsg "" = "❌ 연결 실패: " := by decide
  have h2 : (failureMsg e).data = ("❌ 연결 실패: ").data ++ e.data := by
    show (("❌ 연결 실패: " : String) ++ e).data = _
    rw [String.data_append]
  rw [h1, h2]
  simp [List.isPrefixOf_iff_prefix]

/-- The handler message is never the empty string. -/
lemma failureMsg_ne_empty (e : String) : failureMsg e ≠ "" := by
  intro h
  have hd := congrArg String.data h
  unfold failureMsg at hd
  rw [String.data_append] at hd
  simp at hd

/-- The handler message carries the underlying error description. -/
lemma failureMsg_carries (e : String) : ∃ p, failureMsg e = p ++ e :=
  ⟨"❌ 연결 실패: ", rfl⟩

/-- The body prints no failure-shaped line. -/
lemma tryBody_prints_no_failure (env : Env) (o : Oracle) :
    (printsOf (tryBody env o).1).filter (fun s => isFailureLine s) = [] := by
  rcases tryBody_shape env o with
    ⟨e, hce, h⟩ | ⟨e, h⟩ | ⟨e, h⟩ | ⟨e, h⟩ | ⟨v, e, h⟩ | ⟨v, e, h⟩ | ⟨v, h⟩ <;>
    rw [h] <;>
    simp [printsOf, isFailureLine_banner, isFailureLine_versionLine]

/-- On a failing run, the last printed line is the failure message. -/
lemma output_fail_getLast (env : Env) (o : Oracle) (e : String)
    (h : (tryBody env o).2 = some e) :
    (output env o).getLast? = some (failureMsg e) := by
  unfold output
  rw [run_fail_eq env o e h, printsOf_append]
  simp [printsOf, List.getLast?_concat]

/-- On a failing run, the failure message is the one and only
failure-shaped printed line. -/
lemma output_fail_filter (env : Env) (o : Oracle) (e : String)
    (h : (tryBody env o).2 = some e) :
    (output env o).filter (fun s => isFailureLine s) = [failureMsg e] := by
  unfold output
  rw [run_fail_eq env o e h, printsOf_append, List.filter_append,
    tryBody_prints_no_failure]
  simp [printsOf, isFailureLine_failureMsg]

/-- No run ever emits a file write. -/
lemma run_no_fileWrite (env : Env) (o : Oracle) :
    countEv isFileWrite (run env o) = 0 := by
  rcases tryBody_shape env o with
    ⟨e, hce, h⟩ | ⟨e, h⟩ | ⟨e, h⟩ | ⟨e, h⟩ | ⟨v, e, h⟩ | ⟨v, e, h⟩ | ⟨v, h⟩ <;>
    simp [run, script, h, countEv, isFileWrite]

/-- No run ever sets an explicit exit code. -/
lemma run_no_sysExit (env : Env) (o : Oracle) :
    countEv isSysExit (run env o) = 0 := by
  rcases tryBody_shape env o with
    ⟨e, hce, h⟩ | ⟨e, h⟩ | ⟨e, h⟩ | ⟨e, h⟩ | ⟨v, e, h⟩ | ⟨v, e, h⟩ | ⟨v, h⟩ <;>
    simp [run, script, h, countEv, isSysExit]

/-- Every run makes exactly one connection attempt. -/
lemma run_one_connect (env : Env) (o : Oracle) :
    countEv isConnectAttempt (run env o) = 1 := by
  rcases tryBody_shape env o with
    ⟨e, hce, h⟩ | ⟨e, h⟩ | ⟨e, h⟩ | ⟨e, h⟩ | ⟨v, e, h⟩ | ⟨v, e, h⟩ | ⟨v, h⟩ <;>
    simp [run, script, h, countEv, isConnectAttempt]

/-- A trace with no file writes leaves the persistent world unchanged. -/
lemma applyEvents_eq_self (evs : List Event)
    (h : countEv isFileWrite evs = 0) :
    ∀ w : World, applyEvents w evs = w := by
  induction evs with
  | nil => intro w; rfl
  | cons ev rest ih =>
    intro w
    simp only [countEv, List.filter_cons] at h
    cases hev : isFileWrite ev
    · rw [hev] at h
      simp only [Bool.false_eq_true, if_false] at h
      have hrest : countEv isFileWrite rest = 0 := h
      have hw : applyEvents w (ev :: rest) = applyEvents w rest := by
        cases ev
        case fileWrite p c => simp [isFileWrite] at hev
        all_goals simp [applyEvents, List.foldl]
      rw [hw]
      exact ih hrest w
    · rw [hev] at h
      simp at h

/-- If the body raised no exception, the connection must have opened. -/
lemma connAcquired_of_none (env : Env) (o : Oracle)
    (h : (tryBody env o).2 = none) : connAcquired env o = true := by
  unfold connAcquired
  cases hc : o.connectResult (getenv env "DATABASE_URL")
  · rename_i e
    have hx : (tryBody env o).2 = some e := by simp [tryBody, hc]
    rw [hx] at h
    exact Option.noConfusion h
  · rfl

/-- On a successful run, the trace is the full eight-event success trace
for the version string that was fetched. -/
lemma tryBody_none_trace (env : Env) (o : Oracle)
    (h : (tryBody env o).2 = none) :
    ∃ v, run env o =
      [.connectAttempt (getenv env "DATABASE_URL"), .print successBanner,
       .openCursor, .execQuery versionQuery, .fetchRow,
       .print (versionLine v), .closeCursor, .closeConn] := by
  rcases tryBody_shape env o with
    ⟨e, hce, hs⟩ | ⟨e, hs⟩ | ⟨e, hs⟩ | ⟨e, hs⟩ | ⟨v, e, hs⟩ | ⟨v, e, hs⟩ |
      ⟨v, hs⟩ <;>
    rw [hs] at h <;> simp at h
  exact ⟨v, by rw [run_none_eq env o (by rw [hs]), hs]⟩

/-! ## Claim theorems -/

/-- C1, counterexample: the claim "if the connection is acquired then the
connection and the cursor are each released exactly once, on the success
path and on every failure path" is false for this code.  With a reachable
database and a query that raises, the connection is acquired but neither
`cur.close()` nor `conn.close()` is ever called: the `try` block has no
`finally` and the handler does not close anything. -/
theorem c1_counterexample : ¬ releasedOnceWhenAcquired := fun h =>
  absurd (h envDemo oExecFail (by decide)).1 (by decide)

/-- C1 (amended): if the probe raises no exception, then the connection
was acquired and the connection and the cursor are each released exactly
once before the process ends; on failure paths after acquisition the code
does not guarantee release. -/
theorem c1_amended_release_on_success (env : Env) (o : Oracle)
    (h : (tryBody env o).2 = none) :
    connAcquired env o = true
    ∧ countEv isCloseConn (run env o) = 1
    ∧ countEv isCloseCursor (run env o) = 1 := by
  obtain ⟨v, hrun⟩ := tryBody_none_trace env o h
  exact ⟨connAcquired_of_none env o h,
    by simp [hrun, countEv, isCloseConn, List.filter],
    by simp [hrun, countEv, isCloseCursor, List.filter]⟩

/-- Witness for the amended C1 at a concrete environment and driver. -/
theorem c1_amended_release_on_success_witness :
    (tryBody envDemo oAllOk).2 = none
    ∧ (connAcquired envDemo oAllOk = true
        ∧ countEv isCloseConn (run envDemo oAllOk) = 1
        ∧ countEv isCloseCursor (run envDemo oAllOk) = 1) :=
  ⟨by decide, c1_amended_release_on_success envDemo oAllOk (by decide)⟩

/-- C2, counterexample: the claim "never both a success marker and a
failure message in the same run" is false: when the connection opens and
the query then raises, the output holds the success banner and then the
failure message. -/
theorem c2_counterexample : ¬ neverBothMarkers := fun h =>
  h envDemo oExecFail ⟨by decide,
    failureMsg "ERROR: permission denied", by decide, by decide⟩

/-- C2 (amended): every run's output has exactly one terminal shape:
either it is exactly the success report (banner then version line) and no
failure-shaped line occurs, or its last line is the unique failure-shaped
message, preceded only by the progress lines printed before the error. -/
theorem c2_amended_single_terminal_shape (env : Env) (o : Oracle) :
    (∃ v, output env o = [successBanner, versionLine v]
      ∧ (output env o).filter (fun s => isFailureLine s) = [])
    ∨ (∃ e pre, output env o = pre ++ [failureMsg e]
      ∧ (output env o).filter (fun s => isFailureLine s) = [failureMsg e]) := by
  cases hx : (tryBody env o).2 with
  | none =>
    obtain ⟨v, hrun⟩ := tryBody_none_trace env o hx
    refine Or.inl ⟨v, ?_, ?_⟩
    · simp [output, hrun, printsOf]
    · simp [output, hrun, printsOf, isFailureLine_banner,
        isFailureLine_versionLine]
  | some e =>
    refine Or.inr ⟨e, printsOf (tryBody env o).1, ?_,
      output_fail_filter env o e hx⟩
    unfold output
    rw [run_fail_eq env o e hx, printsOf_append]
    simp [printsOf]

/-- C3: every exception raised inside the configure-connect-query-fetch-
extract sequence is caught by the top-level handler, which prints a single
failure-shaped message carrying the underlying error description (never
the empty string), re-raises nothing, and the process sets no explicit
exit and lets no error escape. -/
theorem c3_uniform_failure_handling (env : Env) (o : Oracle) (e : String)
    (h : (tryBody env o).2 = some e) :
    run env o = (tryBody env o).1 ++ [Event.print (failureMsg e)]
    ∧ (output env o).getLast? = some (failureMsg e)
    ∧ (output env o).filter (fun s => isFailureLine s) = [failureMsg e]
    ∧ (∃ p, failureMsg e = p ++ e)
    ∧ failureMsg e ≠ ""
    ∧ (script env o).2 = none
    ∧ countEv isSysExit (run env o) = 0 :=
  ⟨run_fail_eq env o e h, output_fail_getLast env o e h,
    output_fail_filter env o e h, failureMsg_carries e,
    failureMsg_ne_empty e, script_snd_none env o, run_no_sysExit env o⟩

/-- Witness for C3 at a concrete refused connection. -/
theorem c3_uniform_failure_handling_witness :
    (tryBody envDemo oConnFail).2 = some "connection refused"
    ∧ (run envDemo oConnFail = (tryBody envDemo oConnFail).1
          ++ [Event.print (failureMsg "connection refused")]
        ∧ (output envDemo oConnFail).getLast?
            = some (failureMsg "connection refused")
        ∧ (output envDemo oConnFail).filter (fun s => isFailureLine s)
            = [failureMsg "connection refused"]
        ∧ (∃ p, failureMsg "connection refused" = p ++ "connection refused")
        ∧ failureMsg "connection refused" ≠ ""
        ∧ (script envDemo oConnFail).2 = none
        ∧ countEv isSysExit (run envDemo oConnFail) = 0) :=
  ⟨by decide,
    c3_uniform_failure_handling envDemo oConnFail "connection refused"
      (by decide)⟩

/-- C5: on every failing execution the handler only prints the failure
message (the trace is the body's events plus that one print), no explicit
exit code is ever set, and no exception escapes the process. -/
theorem c5_no_explicit_exit (env : Env) (o : Oracle) (e : String)
    (h : (tryBody env o).2 = some e) :
    run env o = (tryBody env o).1 ++ [Event.print (failureMsg e)]
    ∧ countEv isSysExit (run env o) = 0
    ∧ (script env o).2 = none :=
  ⟨run_fail_eq env o e h, run_no_sysExit env o, script_snd_none env o⟩

/-- Witness for C5 at a concrete failing query. -/
theorem c5_no_explicit_exit_witness :
    (tryBody envDemo oExecFail).2 = some "ERROR: permission denied"
    ∧ (run envDemo oExecFail = (tryBody envDemo oExecFail).1
          ++ [Event.print (failureMsg "ERROR: permission denied")]
        ∧ countEv isSysExit (run envDemo oExecFail) = 0
        ∧ (script envDemo oExecFail).2 = none) :=
  ⟨by decide,
    c5_no_explicit_exit envDemo oExecFail "ERROR: permission denied"
      (by decide)⟩

/-- C6: two successive runs against the same environment and the same
driver behaviour produce identical traces, and neither run changes the
persistent world, so nothing written by the first run is read by the
second. -/
theorem c6_two_runs_independent (w : World) (env : Env) (o : Oracle) :
    (runW w env o).1 = (runW (runW w env o).2 env o).1
    ∧ (runW w env o).2 = w
    ∧ (runW (runW w env o).2 env o).2 = w := by
  have hw := applyEvents_eq_self (run env o) (run_no_fileWrite env o)
  exact ⟨rfl, hw w, by simp [runW, hw]⟩

/-- C7: every invocation makes exactly one connection attempt, writes no
file, and leaves the persistent world unchanged: its only side effects are
the terminal prints in its trace. -/
theorem c7_single_attempt_no_persistence (env : Env) (o : Oracle) :
    countEv isConnectAttempt (run env o) = 1
    ∧ countEv isFileWrite (run env o) = 0
    ∧ ∀ w : World, applyEvents w (run env o) = w :=
  ⟨run_one_connect env o, run_no_fileWrite env o,
    applyEvents_eq_self (run env o) (run_no_fileWrite env o)⟩

/-- C4: when the connection opens and the query and fetch succeed with a
row, the probe runs exactly one query, the fixed `SELECT version()`, does
exactly one fetch, extracts the row's first field, and its output starts
with the success banner followed by a line that begins with
`PostgreSQL` and contains the fetched version string. -/
theorem c4_success_report (env : Env) (o : Oracle) (v : String)
    (rest : List String)
    (hconn : o.connectResult (getenv env "DATABASE_URL") = .ok ())
    (hcur : o.cursorResult = .ok ())
    (hexec : o.executeResult versionQuery = .ok ())
    (hfetch : o.fetchResult = .ok (some (v :: rest))) :
    (run env o).filter isExecQuery = [Event.execQuery versionQuery]
    ∧ countEv isFetchRow (run env o) = 1
    ∧ subscript0 (some (v :: rest)) = Except.ok v
    ∧ (∃ tail, output env o = successBanner :: versionLine v :: tail)
    ∧ strStartsWith (versionLine v) "PostgreSQL"
    ∧ (∃ p q, versionLine v = p ++ v ++ q) := by
  have hstart : strStartsWith (versionLine v) "PostgreSQL" := by
    refine ⟨" version: " ++ v, ?_⟩
    have h1 : ("PostgreSQL version: " : String)
        = "PostgreSQL" ++ " version: " := by decide
    show "PostgreSQL version: " ++ v = _
    rw [h1, String.append_assoc]
  have hcarry : ∃ p q, versionLine v = p ++ v ++ q :=
    ⟨"PostgreSQL version: ", "", by simp [versionLine]⟩
  have key : ∃ tl : List Event,
      run env o = [Event.connectAttempt (getenv env "DATABASE_URL"),
        .print successBanner, .openCursor, .execQuery versionQuery,
        .fetchRow, .print (versionLine v)] ++ tl
      ∧ tl.filter isExecQuery = [] ∧ tl.filter isFetchRow = [] := by
    cases hcc : o.closeCurResult
    · rename_i e1
      refine ⟨[.closeCursor, .print (failureMsg e1)], ?_, rfl, rfl⟩
      simp [run, script, tryBody, hconn, hcur, hexec, hfetch, subscript0,
        hcc]
    · cases hcn : o.closeConnResult
      · rename_i e1
        refine ⟨[.closeCursor, .closeConn, .print (failureMsg e1)],
          ?_, rfl, rfl⟩
        simp [run, script, tryBody, hconn, hcur, hexec, hfetch, subscript0,
          hcc, hcn]
      · refine ⟨[.closeCursor, .closeConn], ?_, rfl, rfl⟩
        simp [run, script, tryBody, hconn, hcur, hexec, hfetch, subscript0,
          hcc, hcn]
  obtain ⟨tl, hr, hq, hf⟩ := key
  refine ⟨?_, ?_, rfl, ⟨printsOf tl, ?_⟩, hstart, hcarry⟩
  · rw [hr, List.filter_append, hq]
    simp [isExecQuery]
  · show ((run env o).filter isFetchRow).length = 1
    rw [hr, List.filter_append, hf]
    simp [isFetchRow]
  · rw [output, hr, printsOf_append]
    simp [printsOf]

/-- Witness for C4 at a concrete live service. -/
theorem c4_success_report_witness :
    oAllOk.connectResult (getenv envDemo "DATABASE_URL") = .ok ()
    ∧ oAllOk.cursorResult = .ok ()
    ∧ oAllOk.executeResult versionQuery = .ok ()
    ∧ oAllOk.fetchResult
        = .ok (some ("PostgreSQL 16.2 on x86_64-pc-linux-gnu" :: []))
    ∧ ((run envDemo oAllOk).filter isExecQuery
          = [Event.execQuery versionQuery]
        ∧ countEv isFetchRow (run envDemo oAllOk) = 1
        ∧ subscript0 (some ("PostgreSQL 16.2 on x86_64-pc-linux-gnu" :: []))
            = Except.ok "PostgreSQL 16.2 on x86_64-pc-linux-gnu"
        ∧ (∃ tail, output envDemo oAllOk = successBanner
            :: versionLine "PostgreSQL 16.2 on x86_64-pc-linux-gnu" :: tail)
        ∧ strStartsWith
            (versionLine "PostgreSQL 16.2 on x86_64-pc-linux-gnu")
            "PostgreSQL"
        ∧ (∃ p q, versionLine "PostgreSQL 16.2 on x86_64-pc-linux-gnu"
            = p ++ "PostgreSQL 16.2 on x86_64-pc-linux-gnu" ++ q)) :=
  ⟨rfl, rfl, rfl, rfl,
    c4_success_report envDemo oAllOk
      "PostgreSQL 16.2 on x86_64-pc-linux-gnu" [] rfl rfl rfl rfl⟩

/-- C8: when `fetchone` yields no row, the subscript raises, the handler
prints the failure message for that error as the last output line, and the
process terminates normally with no escaping exception and no explicit
exit. -/
theorem c8_none_row_caught (env : Env) (o : Oracle)
    (hconn : o.connectResult (getenv env "DATABASE_URL") = .ok ())
    (hcur : o.cursorResult = .ok ())
    (hexec : o.executeResult versionQuery = .ok ())
    (hfetch : o.fetchResult = .ok none) :
    (tryBody env o).2 = some noneSubscriptError
    ∧ (output env o).getLast? = some (failureMsg noneSubscriptError)
    ∧ (script env o).2 = none
    ∧ countEv isSysExit (run env o) = 0 := by
  have hx : (tryBody env o).2 = some noneSubscriptError := by
    simp [tryBody, hconn, hcur, hexec, hfetch, subscript0]
  exact ⟨hx, output_fail_getLast env o _ hx, script_snd_none env o,
    run_no_sysExit env o⟩

/-- Witness for C8 at a concrete no-row driver. -/
theorem c8_none_row_caught_witness :
    oNoRow.connectResult (getenv envDemo "DATABASE_URL") = .ok ()
    ∧ oNoRow.cursorResult = .ok ()
    ∧ oNoRow.executeResult versionQuery = .ok ()
    ∧ oNoRow.fetchResult = .ok none
    ∧ ((tryBody envDemo oNoRow).2 = some noneSubscriptError
        ∧ (output envDemo oNoRow).getLast?
            = some (failureMsg noneSubscriptError)
        ∧ (script envDemo oNoRow).2 = none
        ∧ countEv isSysExit (run envDemo oNoRow) = 0) :=
  ⟨rfl, rfl, rfl, rfl, c8_none_row_caught envDemo oNoRow rfl rfl rfl rfl⟩

/-- C9: when `DATABASE_URL` is absent the probe performs no precondition
check: the connect call is still made, with `None` as its argument, and a
connect error is reported only through the same uniform failure message as
any other error. -/
theorem c9_missing_env_uniform (env : Env) (o : Oracle)
    (h : getenv env "DATABASE_URL" = none) :
    (run env o).head? = some (Event.connectAttempt none)
    ∧ (∀ e, o.connectResult none = Except.error e →
        output env o = [failureMsg e]) := by
  constructor
  · rcases tryBody_shape env o with
      ⟨e, hce, hs⟩ | ⟨e, hs⟩ | ⟨e, hs⟩ | ⟨e, hs⟩ | ⟨v, e, hs⟩ |
        ⟨v, e, hs⟩ | ⟨v, hs⟩ <;>
      simp [run, script, hs, h]
  · intro e he
    have ht : tryBody env o = ([.connectAttempt none], some e) := by
      simp [tryBody, h, he]
    simp [output, run, script, ht, printsOf]

/-- Witness for C9 at the empty environment and a refused connection. -/
theorem c9_missing_env_uniform_witness :
    getenv envEmpty "DATABASE_URL" = none
    ∧ ((run envEmpty oConnFail).head? = some (Event.connectAttempt none)
        ∧ (∀ e, oConnFail.connectResult none = Except.error e →
            output envEmpty oConnFail = [failureMsg e])) :=
  ⟨rfl, c9_missing_env_uniform envEmpty oConnFail rfl⟩

/-- C10: the success banner is printed immediately after the connect call,
before the cursor is opened and before the query runs; hence on every run
where the connection opens and a later step raises, the output begins with
the success banner and ends with the failure message, in that order, as
two distinct lines. -/
theorem c10_banner_then_failure (env : Env) (o : Oracle)
    (hconn : o.connectResult (getenv env "DATABASE_URL") = .ok ()) :
    (∃ tl, run env o = Event.connectAttempt (getenv env "DATABASE_URL")
        :: Event.print successBanner :: tl)
    ∧ ∀ e, (tryBody env o).2 = some e →
        (output env o).head? = some successBanner
        ∧ (output env o).getLast? = some (failureMsg e)
        ∧ 2 ≤ (output env o).length := by
  constructor
  · refine ⟨(run env o).drop 2, ?_⟩
    rcases tryBody_shape env o with
      ⟨e, hce, hs⟩ | ⟨e, hs⟩ | ⟨e, hs⟩ | ⟨e, hs⟩ | ⟨v, e, hs⟩ |
        ⟨v, e, hs⟩ | ⟨v, hs⟩
    · rw [hconn] at hce
      exact Except.noConfusion hce
    all_goals simp [run, script, hs]
  · intro e h2
    rcases tryBody_shape env o with
      ⟨e0, hce, hs⟩ | ⟨e0, hs⟩ | ⟨e0, hs⟩ | ⟨e0, hs⟩ | ⟨v, e0, hs⟩ |
        ⟨v, e0, hs⟩ | ⟨v, hs⟩
    · rw [hconn] at hce
      exact Except.noConfusion hce
    all_goals rw [hs] at h2
    all_goals simp at h2
    all_goals try subst h2
    all_goals refine ⟨?_, ?_, ?_⟩ <;>
      simp [output, run, script, hs, printsOf]

/-- Witness for C10 at a concrete failing query after a live connect. -/
theorem c10_banner_then_failure_witness :
    oExecFail.connectResult (getenv envDemo "DATABASE_URL") = .ok ()
    ∧ ((∃ tl, run envDemo oExecFail
          = Event.connectAttempt (getenv envDemo "DATABASE_URL")
            :: Event.print successBanner :: tl)
        ∧ ∀ e, (tryBody envDemo oExecFail).2 = some e →
            (output envDemo oExecFail).head? = some successBanner
            ∧ (output envDemo oExecFail).getLast? = some (failureMsg e)
            ∧ 2 ≤ (output envDemo oExecFail).length) :=
  ⟨rfl, c10_banner_then_failure envDemo oExecFail rfl⟩

end CheckDb
